import Mathlib

/-!
Verification of the WaterTAP repository excerpt against its specification.

This file shallowly embeds the parts of the source code that the claims
C1..C10 are about:

* `ADM1` — the ADM1 anaerobic-digestion reaction parameter block
  (`watertap/property_models/anaerobic_digestion/adm1_reactions.py`):
  the Peterson stoichiometry table built by
  `ADM1ReactionParameterData.build`, the computed `S_IC` column, the
  `_rxn_rate` construction with its cleanup-on-AttributeError policy and
  the R8/R9 uptake-rate expressions.
* `NF` — the nanofiltration DSPM-DE unit model
  (`watertap/unit_models/nanofiltration_DSPMDE_0D.py`): the
  `lambda_comp` / hindrance-factor expressions, the electroneutrality
  constraints, `_get_state_args` and the `initialize` control flow.
* `Flowsheets` — the `solve` wrappers of the OARO and swine-WWT scripts
  and the design-variant functions of the simple NF+RO script.

Pyomo parameters (`pyo.Var(initialize=...)`) are embedded at the literal
default values they carry when the parameter block is built, as exact
rationals.  String-keyed dictionaries become association lists over
closed enumerations, preserving the construction order of the source.
-/

set_option maxRecDepth 10000

namespace ADM1

/-- The 19 named ADM1 reactions, `rate_reaction_idx` in the source. -/
inductive Reaction
  | R1 | R2 | R3 | R4 | R5 | R6 | R7 | R8 | R9 | R10
  | R11 | R12 | R13 | R14 | R15 | R16 | R17 | R18 | R19
  deriving DecidableEq, Repr

/-- The single phase used by the package. -/
inductive Phase
  | Liq
  deriving DecidableEq, Repr

/-- The component names that appear as third key element in
`rate_reaction_stoichiometry`: the 25 tracked components of the literal
dict plus the cation/anion components `S_cat`, `S_an` added by the final
loop of `build`. -/
inductive Component
  | H2O | S_su | S_aa | S_fa | S_va | S_bu | S_pro | S_ac | S_h2 | S_ch4
  | S_IC | S_IN | S_I | X_c | X_ch | X_pr | X_li | X_su | X_aa | X_fa
  | X_c4 | X_pro | X_ac | X_h2 | X_I | S_cat | S_an
  deriving DecidableEq, Repr

open Reaction Phase Component

/-- `rate_reaction_idx`, in source order. -/
def rate_reaction_idx : List Reaction :=
  [R1, R2, R3, R4, R5, R6, R7, R8, R9, R10,
   R11, R12, R13, R14, R15, R16, R17, R18, R19]

/-- The 25 components indexed by the literal stoichiometry dict, in the
per-reaction order of the source (also the component list asserted by
`test_adm1_reaction.py::TestParamBlock.test_build`). -/
def components25 : List Component :=
  [H2O, S_su, S_aa, S_fa, S_va, S_bu, S_pro, S_ac, S_h2, S_ch4,
   S_IC, S_IN, S_I, X_c, X_ch, X_pr, X_li, X_su, X_aa, X_fa,
   X_c4, X_pro, X_ac, X_h2, X_I]

/- Stoichiometric parameters of `build`, at their `initialize=` default
values (the block fixes every `Var` at these values at the end of
`build`). -/

def f_sI_xc : ℚ := 0.1
def f_xI_xc : ℚ := 0.20
def f_ch_xc : ℚ := 0.2
def f_pr_xc : ℚ := 0.2
def f_li_xc : ℚ := 0.30
def N_xc : ℚ := 0.0376 / 14
def N_I : ℚ := 0.06 / 14
def N_aa : ℚ := 0.007
def N_bac : ℚ := 0.08 / 14
def f_fa_li : ℚ := 0.95
def f_h2_su : ℚ := 0.19
def f_bu_su : ℚ := 0.13
def f_pro_su : ℚ := 0.27
def f_ac_su : ℚ := 0.41
def f_h2_aa : ℚ := 0.06
def f_va_aa : ℚ := 0.23
def f_bu_aa : ℚ := 0.26
def f_pro_aa : ℚ := 0.05
def f_ac_aa : ℚ := 0.40
def Y_su : ℚ := 0.10
def Y_aa : ℚ := 0.08
def Y_fa : ℚ := 0.06
def Y_c4 : ℚ := 0.06
def Y_pro : ℚ := 0.04
def Y_ac : ℚ := 0.05
def Y_h2 : ℚ := 0.06

/-- `mw_n = 14 kg/kmol` (numeric value). -/
def mw_n : ℚ := 14

/-- `mw_c = 12 kg/kmol` (numeric value). -/
def mw_c : ℚ := 12

/-- Carbon content `Ci` of the components that carry a `Ci_dict` entry
(`Ci` is a `Var` indexed only by `Ci_dict.keys()`); the value returned
for any other component is never used. -/
def Ci : Component → ℚ
  | S_su => 0.0313
  | S_aa => 0.03
  | S_fa => 0.0217
  | S_va => 0.0240
  | S_bu => 0.0250
  | S_pro => 0.0268
  | S_ac => 0.0313
  | S_ch4 => 0.0156
  | S_IC => 1
  | S_I => 0.03
  | X_c => 0.02786
  | X_ch => 0.0313
  | X_pr => 0.03
  | X_li => 0.0220
  | X_su => 0.0313
  | X_aa => 0.0313
  | X_fa => 0.0313
  | X_c4 => 0.0313
  | X_pro => 0.0313
  | X_ac => 0.0313
  | X_I => 0.03
  | _ => 0

/-- `Ci_dict.keys()`, in source order. -/
def ciComponents : List Component :=
  [S_su, S_aa, S_fa, S_va, S_bu, S_pro, S_ac, S_ch4, S_IC, S_I,
   X_c, X_ch, X_pr, X_li, X_su, X_aa, X_fa, X_c4, X_pro, X_ac, X_I]

/-- R1 (Disintegration) row of the literal stoichiometry dict; the
source lists every zero explicitly, entries not named are those zeros
(`S_cat`/`S_an` are not part of the literal dict). -/
def stoichR1 : Component → ℚ
  | S_I => f_sI_xc
  | X_c => -1
  | X_ch => f_ch_xc
  | X_pr => f_pr_xc
  | X_li => f_li_xc
  | X_I => f_xI_xc
  | _ => 0

/-- R2 (Hydrolysis of carbohydrates) row of the literal dict. -/
def stoichR2 : Component → ℚ
  | S_su => 1
  | X_ch => -1
  | _ => 0

/-- R3 (Hydrolysis of proteins) row of the literal dict. -/
def stoichR3 : Component → ℚ
  | S_aa => 1
  | X_pr => -1
  | _ => 0

/-- R4 (Hydrolysis of lipids) row of the literal dict. -/
def stoichR4 : Component → ℚ
  | S_su => 1 - f_fa_li
  | S_fa => f_fa_li
  | X_li => -1
  | _ => 0

/-- R5 (Uptake of sugars) row of the literal dict; the `S_IC` entry is
the literal 0 placeholder updated later. -/
def stoichR5 : Component → ℚ
  | S_su => -1
  | S_bu => (1 - Y_su) * f_bu_su
  | S_pro => (1 - Y_su) * f_pro_su
  | S_ac => (1 - Y_su) * f_ac_su
  | S_h2 => (1 - Y_su) * f_h2_su
  | S_IN => (-Y_su * N_bac) * mw_n
  | X_su => Y_su
  | _ => 0

/-- R6 (Uptake of amino acids) row of the literal dict. -/
def stoichR6 : Component → ℚ
  | S_aa => -1
  | S_va => (1 - Y_aa) * f_va_aa
  | S_bu => (1 - Y_aa) * f_bu_aa
  | S_pro => (1 - Y_aa) * f_pro_aa
  | S_ac => (1 - Y_aa) * f_ac_aa
  | S_h2 => (1 - Y_aa) * f_h2_aa
  | S_IN => (N_aa - Y_aa * N_bac) * mw_n
  | X_aa => Y_aa
  | _ => 0

/-- R7 (Uptake of long chain fatty acids) row of the literal dict. -/
def stoichR7 : Component → ℚ
  | S_fa => -1
  | S_ac => (1 - Y_fa) * 0.7
  | S_h2 => (1 - Y_fa) * 0.3
  | S_IN => (-Y_fa * N_bac) * mw_n
  | X_fa => Y_fa
  | _ => 0

/-- R8 (Uptake of valerate) row of the literal dict. -/
def stoichR8 : Component → ℚ
  | S_va => -1
  | S_pro => (1 - Y_c4) * 0.54
  | S_ac => (1 - Y_c4) * 0.31
  | S_h2 => (1 - Y_c4) * 0.15
  | S_IN => (-Y_c4 * N_bac) * mw_n
  | X_c4 => Y_c4
  | _ => 0

/-- R9 (Uptake of butyrate) row of the literal dict. -/
def stoichR9 : Component → ℚ
  | S_bu => -1
  | S_ac => (1 - Y_c4) * 0.8
  | S_h2 => (1 - Y_c4) * 0.2
  | S_IN => (-Y_c4 * N_bac) * mw_n
  | X_c4 => Y_c4
  | _ => 0

/-- R10 (Uptake of propionate) row of the literal dict. -/
def stoichR10 : Component → ℚ
  | S_pro => -1
  | S_ac => (1 - Y_pro) * 0.57
  | S_h2 => (1 - Y_pro) * 0.43
  | S_IN => (-Y_pro * N_bac) * mw_n
  | X_pro => Y_pro
  | _ => 0

/-- R11 (Uptake of acetate) row of the literal dict. -/
def stoichR11 : Component → ℚ
  | S_ac => -1
  | S_ch4 => 1 - Y_ac
  | S_IN => (-Y_ac * N_bac) * mw_n
  | X_ac => Y_ac
  | _ => 0

/-- R12 (Uptake of hydrogen) row of the literal dict. -/
def stoichR12 : Component → ℚ
  | S_h2 => -1
  | S_ch4 => 1 - Y_h2
  | S_IN => (-Y_h2 * N_bac) * mw_n
  | X_h2 => Y_h2
  | _ => 0

/-- R13 (Decay of X_su) row of the literal dict. -/
def stoichR13 : Component → ℚ
  | S_IN => (N_bac - N_xc) * mw_n
  | X_c => 1
  | X_su => -1
  | _ => 0

/-- R14 (Decay of X_aa) row of the literal dict. -/
def stoichR14 : Component → ℚ
  | S_IN => (N_bac - N_xc) * mw_n
  | X_c => 1
  | X_aa => -1
  | _ => 0

/-- R15 (Decay of X_fa) row of the literal dict. -/
def stoichR15 : Component → ℚ
  | S_IN => (N_bac - N_xc) * mw_n
  | X_c => 1
  | X_fa => -1
  | _ => 0

/-- R16 (Decay of X_c4) row of the literal dict. -/
def stoichR16 : Component → ℚ
  | S_IN => (N_bac - N_xc) * mw_n
  | X_c => 1
  | X_c4 => -1
  | _ => 0

/-- R17 (Decay of X_pro) row of the literal dict. -/
def stoichR17 : Component → ℚ
  | S_IN => (N_bac - N_xc) * mw_n
  | X_c => 1
  | X_pro => -1
  | _ => 0

/-- R18 (Decay of X_ac) row of the literal dict. -/
def stoichR18 : Component → ℚ
  | S_IN => (N_bac - N_xc) * mw_n
  | X_c => 1
  | X_ac => -1
  | _ => 0

/-- R19 (Decay of X_h2) row of the literal dict. -/
def stoichR19 : Component → ℚ
  | S_IN => (N_bac - N_xc) * mw_n
  | X_c => 1
  | X_h2 => -1
  | _ => 0

/-- The literal stoichiometry dict of `build` (before the `S_IC` update
loop and the `S_cat`/`S_an` loop): the value stored at `(R, "Liq", c)`. -/
def stoichLit : Reaction → Component → ℚ
  | R1 => stoichR1
  | R2 => stoichR2
  | R3 => stoichR3
  | R4 => stoichR4
  | R5 => stoichR5
  | R6 => stoichR6
  | R7 => stoichR7
  | R8 => stoichR8
  | R9 => stoichR9
  | R10 => stoichR10
  | R11 => stoichR11
  | R12 => stoichR12
  | R13 => stoichR13
  | R14 => stoichR14
  | R15 => stoichR15
  | R16 => stoichR16
  | R17 => stoichR17
  | R18 => stoichR18
  | R19 => stoichR19

/-- `s_ic_rxns` of the source: the five mass-uptake reactions whose
`S_IC` entry is recomputed after the literal dict. -/
def s_ic_rxns : List Reaction := [R5, R6, R10, R11, R12]

/-- The value the `S_IC` update loop stores for a reaction `R`:
`-sum(Ci[S] * stoich[R, "Liq", S] * mw_c for S in Ci_dict.keys() if S != "S_IC")`.
At loop time every summand still holds its literal value. -/
def sIcValue (R : Reaction) : ℚ :=
  -((ciComponents.filter (fun S => S ≠ S_IC)).map
      (fun S => Ci S * stoichLit R S * mw_c)).sum

/-- The value held at `(R, "Liq", c)` after the `S_IC` update loop. -/
def stoichUpdated (R : Reaction) (c : Component) : ℚ :=
  if c = S_IC ∧ R ∈ s_ic_rxns then sIcValue R else stoichLit R c

/-- `rate_reaction_stoichiometry` as it stands when `build` returns: the
19 x 25 literal grid (with the recomputed `S_IC` entries overwritten in
place), followed by the `S_cat`/`S_an` zero rows appended per reaction
by the final loop.  Association-list order is dict insertion order. -/
def rate_reaction_stoichiometry :
    List ((Reaction × Phase × Component) × ℚ) :=
  (rate_reaction_idx ×ˢ components25).map
    (fun p => ((p.1, Liq, p.2), stoichUpdated p.1 p.2))
  ++ rate_reaction_idx.flatMap
    (fun R => [((R, Liq, S_cat), 0), ((R, Liq, S_an), 0)])

/-- Dictionary lookup into `rate_reaction_stoichiometry`. -/
def stoichLookup (k : Reaction × Phase × Component) : Option ℚ :=
  (rate_reaction_stoichiometry.find? (fun p => p.1 = k)).map (fun p => p.2)

/-- The 25-name component list extended by the `S_cat`/`S_an`
components that the final loop of `build` adds to the dict. -/
def components27 : List Component := components25 ++ [S_cat, S_an]

/-- The `S_IC` value claim C2 asserts: the negative carbon-weighted sum
of the other components' coefficients, without the `mw_c` factor the
source applies (`Ci` is indexed by `Ci_dict.keys()` only, so the sum
ranges over those components; all others carry no carbon term). -/
def claimedSIC (R : Reaction) : ℚ :=
  -((ciComponents.filter (fun S => S ≠ S_IC)).map
      (fun S => Ci S * stoichLit R S)).sum

/-- `Ci_dict.keys()` without `S_IC`, the range of the update-loop sum. -/
def ciNoIC : List Component :=
  [S_su, S_aa, S_fa, S_va, S_bu, S_pro, S_ac, S_ch4, S_I,
   X_c, X_ch, X_pr, X_li, X_su, X_aa, X_fa, X_c4, X_pro, X_ac, X_I]

/-- Abstract identity of a Python `AttributeError` instance raised
while a state block lacks the equipment a rate rule needs. -/
abbrev AttrError := ℕ

/-- The component slots of `ADM1ReactionBlockData` that `_rxn_rate`
touches.  `reaction_rate` is the indexed `Var`, `rate_expression` the
indexed `Constraint` (with contents of type `E`, one per reaction);
`aux_speciation` stands for the speciation/inhibition components
(`conc_mol_va` .. `S_OH`, `pH`, `I_*`) that `_rxn_rate` also creates
and that its `except` handler does not delete. -/
structure RxnBlock (E : Type) where
  reaction_rate : Option (List Reaction)
  rate_expression : Option (List (Reaction × E))
  aux_speciation : Bool

/-- Pyomo construction of `Constraint(self.params.rate_reaction_idx,
rule=rate_expression_rule)`: the rule runs on every index in order, and
the first exception it raises propagates out of the construction. -/
def constructConstraint (rule : Reaction → Except AttrError E) :
    List Reaction → Except AttrError (List (Reaction × E))
  | [] => .ok []
  | R :: rest =>
    match rule R with
    | .error e => .error e
    | .ok c => (constructConstraint rule rest).map (fun cs => (R, c) :: cs)

/-- `ADM1ReactionBlockData._rxn_rate`: creates the `reaction_rate` `Var`
and the speciation/inhibition components, then builds `rate_expression`
inside `try`; on `AttributeError` it runs
`del_component(reaction_rate)`, `del_component(rate_expression)` and
re-raises the same error.  Returns the block as left behind together
with the propagated error, if any. -/
def rxn_rate (blk : RxnBlock E) (rule : Reaction → Except AttrError E) :
    RxnBlock E × Option AttrError :=
  let blk1 : RxnBlock E :=
    { blk with reaction_rate := some rate_reaction_idx, aux_speciation := true }
  match constructConstraint rule rate_reaction_idx with
  | .ok cs => ({ blk1 with rate_expression := some cs }, none)
  | .error e =>
    ({ blk1 with reaction_rate := none, rate_expression := none }, some e)

/-- Division as Pyomo expression evaluation performs it: undefined
(an evaluation error) on a zero denominator. -/
def evalDiv (a b : ℚ) : Option ℚ :=
  if b = 0 then none else some (a / b)

/-- The R8 (uptake of valerate) rate expression of
`rate_expression_rule`, evaluated at a concentration state:
`k_m_c4 * S_va/(K_S_c4 + S_va) * X_c4 * S_va/(S_bu + S_va) * I[R8]`,
with the closing `pyo.units.convert` to `kg/m**3/s` dividing the
day-based value by 86400.  The inhibition factor `I[R8]` is the value
of the separately constructed expression `b.I[r]`, passed in. -/
def rate_R8 (k_m_c4 K_S_c4 : ℚ) (conc : Component → ℚ) (I_r : ℚ) : Option ℚ := do
  let monod ← evalDiv (conc S_va) (K_S_c4 + conc S_va)
  let cosub ← evalDiv (conc S_va) (conc S_bu + conc S_va)
  some (k_m_c4 * monod * conc X_c4 * cosub * I_r / 86400)

/-- The R9 (uptake of butyrate) rate expression of
`rate_expression_rule`:
`k_m_c4 * S_bu/(K_S_c4 + S_bu) * X_c4 * S_bu/(S_bu + S_va) * I[R9]`,
converted to `kg/m**3/s`. -/
def rate_R9 (k_m_c4 K_S_c4 : ℚ) (conc : Component → ℚ) (I_r : ℚ) : Option ℚ := do
  let monod ← evalDiv (conc S_bu) (K_S_c4 + conc S_bu)
  let cosub ← evalDiv (conc S_bu) (conc S_bu + conc S_va)
  some (k_m_c4 * monod * conc X_c4 * cosub * I_r / 86400)

/-- `k_m_c4 = 20 day**-1`, the Monod maximum specific uptake rate of
valerate and butyrate, at its default. -/
def k_m_c4 : ℚ := 20

/-- `K_S_c4 = 0.2 kg/m**3`, the half saturation value for uptake of
valerate and butyrate, at its default. -/
def K_S_c4 : ℚ := 0.2

/-- A concentration state with butyrate present and no valerate, used
as a concrete witness input. -/
def concButyrateOnly : Component → ℚ :=
  fun c => if c = S_bu then 1 else 0

end ADM1

namespace NF

/-!
Embedding of `watertap/unit_models/nanofiltration_DSPMDE_0D.py`.
-/

/-- `idaes.core.util.math.smooth_min(a, b, eps)` (external IDAES
helper invoked by `lambda_comp`): the smooth approximation
`0.5 * (a + b - sqrt((a - b)**2 + eps**2))` of `min a b`, kept
parametric in the smoothing parameter `eps`. -/
noncomputable def smooth_min (a b eps : ℝ) : ℝ :=
  ((a + b) - Real.sqrt ((a - b) ^ 2 + eps ^ 2)) / 2

/-- `lambda_comp`: the ratio of a solute's Stokes radius to the
membrane pore radius, passed through `smooth_min(1, ...)`. -/
noncomputable def lambda_comp (radius_stokes radius_pore eps : ℝ) : ℝ :=
  smooth_min 1 (radius_stokes / radius_pore) eps

/-- The branch of `hindrance_factor_diffusive_comp` taken when
`lambda_comp > 0.95`: `0.984 * ((1 - lam) / lam) ** (5 / 2)`. -/
noncomputable def hindrance_diffusive_above (lam : ℝ) : ℝ :=
  0.984 * ((1 - lam) / lam) ^ ((5 : ℝ) / 2)

/-- The branch of `hindrance_factor_diffusive_comp` taken when
`lambda_comp <= 0.95`: the degree-7 polynomial correlation over
`(1 - lam + eps) ** 2` with `eps = 1e-8`. -/
noncomputable def hindrance_diffusive_below (lam : ℝ) : ℝ :=
  (1 + 9 / 8 * lam * Real.log lam
     - 1.56034 * lam
     + 0.528155 * lam ^ 2
     + 1.91521 * lam ^ 3
     - 2.81903 * lam ^ 4
     + 0.270788 * lam ^ 5
     + 1.10115 * lam ^ 6
     - 0.435933 * lam ^ 7) / (1 - lam + 1e-8) ^ 2

/-- `tol_electroneutrality`, a `Param` initialized to `1e-6 mol/m**3`. -/
def tol_electroneutrality : ℚ := 1e-6

/-- The variable values an electroneutrality-relevant state of the
built unit assigns, over an abstract solute index type `ι`
(`solute_set`): molar concentrations at the feed inlet/outlet, the
feed-side membrane interface, pore entrance/exit and permeate at both
axial locations (`io_list = [0, 1]`), the mixed permeate, the species
charges `charge_comp`, and the membrane charge density. -/
structure ChargeState (ι : Type) where
  conc_interface : Fin 2 → ι → ℚ
  conc_pore_entrance : Fin 2 → ι → ℚ
  conc_pore_exit : Fin 2 → ι → ℚ
  conc_permeate : Fin 2 → ι → ℚ
  conc_mixed_permeate : ι → ℚ
  conc_feed_outlet : ι → ℚ
  charge : ι → ℚ
  membrane_charge_density : ℚ

/-- `conc_mol_phase_comp_pore_avg`: the average of the pore entrance
and pore exit concentrations. -/
def ChargeState.conc_pore_avg (s : ChargeState ι) (x : Fin 2) (j : ι) : ℚ :=
  (s.conc_pore_entrance x j + s.conc_pore_exit x j) * 0.5

/-- `eq_electroneutrality_interface`: charge-weighted concentration sum
at the feed-side membrane interface equals the tolerance parameter. -/
def eq_electroneutrality_interface (solute_set : List ι)
    (s : ChargeState ι) (tol : ℚ) : Prop :=
  ∀ x : Fin 2,
    ((solute_set.map (fun j => s.conc_interface x j * s.charge j)).sum) = tol

/-- `eq_electroneutrality_pore`: charge balance at pore entrance and
pore exit, including the membrane charge density. -/
def eq_electroneutrality_pore (solute_set : List ι)
    (s : ChargeState ι) (tol : ℚ) : Prop :=
  ∀ x : Fin 2,
    ((solute_set.map (fun j => s.conc_pore_entrance x j * s.charge j)).sum
      + s.membrane_charge_density = tol) ∧
    ((solute_set.map (fun j => s.conc_pore_exit x j * s.charge j)).sum
      + s.membrane_charge_density = tol)

/-- `eq_electroneutrality_permeate`. -/
def eq_electroneutrality_permeate (solute_set : List ι)
    (s : ChargeState ι) (tol : ℚ) : Prop :=
  ∀ x : Fin 2,
    ((solute_set.map (fun j => s.conc_permeate x j * s.charge j)).sum) = tol

/-- `eq_electroneutrality_mixed_permeate`. -/
def eq_electroneutrality_mixed_permeate (solute_set : List ι)
    (s : ChargeState ι) (tol : ℚ) : Prop :=
  ((solute_set.map (fun j => s.conc_mixed_permeate j * s.charge j)).sum) = tol

/-- `eq_electroneutrality_feed_outlet`. -/
def eq_electroneutrality_feed_outlet (solute_set : List ι)
    (s : ChargeState ι) (tol : ℚ) : Prop :=
  ((solute_set.map (fun j => s.conc_feed_outlet j * s.charge j)).sum) = tol

/-- `eq_electroneutrality_in_membrane`: charge balance of the
pore-average concentration, including the membrane charge density. -/
def eq_electroneutrality_in_membrane (solute_set : List ι)
    (s : ChargeState ι) (tol : ℚ) : Prop :=
  ∀ x : Fin 2,
    ((solute_set.map (fun j => s.conc_pore_avg x j * s.charge j)).sum
      + s.membrane_charge_density = tol)

/-- Conjunction of every electroneutrality constraint the built unit
imposes (`tol` is `tol_electroneutrality`). -/
def electroneutralityConstraints (solute_set : List ι)
    (s : ChargeState ι) (tol : ℚ) : Prop :=
  eq_electroneutrality_interface solute_set s tol ∧
  eq_electroneutrality_pore solute_set s tol ∧
  eq_electroneutrality_permeate solute_set s tol ∧
  eq_electroneutrality_mixed_permeate solute_set s tol ∧
  eq_electroneutrality_feed_outlet solute_set s tol ∧
  eq_electroneutrality_in_membrane solute_set s tol

/-- The state-variable bundle `_get_state_args` manipulates for one
state block: `pressure`, `temperature`, and the indexed
`flow_mol_phase_comp[('Liq', j)]`. -/
structure StateArgs (ι : Type) where
  pressure : ℚ
  temperature : ℚ
  flow_mol_phase_comp : ι → ℚ

/-- The `initialize_guess` argument: a dict that may supply any of the
four keys; `_get_state_args` fills the missing ones with the defaults
`deltaP = 0`, `solvent_recovery = 0.1`, `solute_recovery = 0.1`,
`cp_modulus = 1.1`. -/
structure InitializeGuessArg where
  deltaP : Option ℚ
  solvent_recovery : Option ℚ
  solute_recovery : Option ℚ
  cp_modulus : Option ℚ

/-- `initialize_guess=None`: no key supplied. -/
def noGuess : InitializeGuessArg := ⟨none, none, none, none⟩

/-- The filled guess after the defaulting block of `_get_state_args`. -/
structure FilledGuess where
  deltaP : ℚ
  solvent_recovery : ℚ
  solute_recovery : ℚ
  cp_modulus : ℚ

/-- The defaulting block of `_get_state_args`. -/
def fillGuess (g : InitializeGuessArg) : FilledGuess :=
  { deltaP := g.deltaP.getD 0
    solvent_recovery := g.solvent_recovery.getD 0.1
    solute_recovery := g.solute_recovery.getD 0.1
    cp_modulus := g.cp_modulus.getD 1.1 }

/-- The five state-argument dicts `_get_state_args` returns. -/
structure StateArgsOut (ι : Type) where
  feed_side : StateArgs ι
  retentate : StateArgs ι
  permeate : StateArgs ι
  interface_in : StateArgs ι
  interface_out : StateArgs ι

/-- `NanofiltrationDSPMDE0D._get_state_args`: derives the retentate,
permeate and interface guesses from the feed state.  The source loops
over `solvent_set` and then `solute_set`, multiplying the corresponding
flow entries in place; a component in neither set is untouched, one in
both would be scaled by both loops. -/
def get_state_args [DecidableEq ι] (solvent_set solute_set : List ι)
    (source : StateArgs ι) (mixed_permeate_pressure : ℚ)
    (initialize_guess : InitializeGuessArg) : StateArgsOut ι :=
  let g := fillGuess initialize_guess
  let state_args := source
  let state_args_retentate : StateArgs ι :=
    { state_args with
      pressure := state_args.pressure + g.deltaP
      flow_mol_phase_comp := fun j =>
        state_args.flow_mol_phase_comp j
          * (if j ∈ solvent_set then 1 - g.solvent_recovery else 1)
          * (if j ∈ solute_set then 1 - g.solute_recovery else 1) }
  let state_args_permeate : StateArgs ι :=
    { state_args with
      pressure := mixed_permeate_pressure
      flow_mol_phase_comp := fun j =>
        state_args.flow_mol_phase_comp j
          * (if j ∈ solvent_set then g.solvent_recovery else 1)
          * (if j ∈ solute_set then g.solute_recovery else 1) }
  let state_args_interface_in : StateArgs ι :=
    { state_args with
      flow_mol_phase_comp := fun j =>
        state_args.flow_mol_phase_comp j
          * (if j ∈ solute_set then g.cp_modulus else 1) }
  let state_args_interface_out : StateArgs ι :=
    { state_args_retentate with
      flow_mol_phase_comp := fun j =>
        state_args_retentate.flow_mol_phase_comp j
          * (if j ∈ solute_set then g.cp_modulus else 1) }
  { feed_side := state_args
    retentate := state_args_retentate
    permeate := state_args_permeate
    interface_in := state_args_interface_in
    interface_out := state_args_interface_out }

/-- The externally observable steps of
`NanofiltrationDSPMDE0D.initialize`, in execution order. -/
inductive InitStep
  | getStateArgs
  | initFeedHoldState
  | checkDof
  | initRetentate
  | initInterface
  | initPermeate
  | initMixedPermeate
  | initPoreEntrance
  | initPoreExit
  | rescaleVariables
  | solveUnit
  | checkSolve
  | releaseInletState
  deriving DecidableEq, Repr

set_option linter.unusedVariables false in
/-- The step trace of `NanofiltrationDSPMDE0D.initialize`:
`automate_rescale` is accepted (default `True`) but never read by the
active code (its only uses are commented out); `n_badly_scaled` is the
number of variables `badly_scaled_var_generator` yields after the state
blocks are initialized, and `first_solve_optimal` whether the first
unit solve terminates optimally (on a non-optimal first solve the unit
is solved exactly once more).  After the held inlet state is released,
`_automate_rescale_variables` runs unconditionally. -/
def initialize_trace (automate_rescale : Bool) (ignore_dof : Bool)
    (n_badly_scaled : ℕ) (first_solve_optimal : Bool) : List InitStep :=
  [InitStep.getStateArgs, InitStep.initFeedHoldState]
  ++ (if ignore_dof then [] else [InitStep.checkDof])
  ++ [InitStep.initRetentate, InitStep.initInterface, InitStep.initPermeate,
      InitStep.initMixedPermeate, InitStep.initPoreEntrance, InitStep.initPoreExit]
  ++ (if 0 < n_badly_scaled then [InitStep.rescaleVariables] else [])
  ++ [InitStep.solveUnit]
  ++ (if first_solve_optimal then [] else [InitStep.solveUnit])
  ++ [InitStep.checkSolve, InitStep.releaseInletState, InitStep.rescaleVariables]

/-- A two-solute set over `ℕ` indices, used as concrete witness input. -/
def soluteSetEx : List ℕ := [0, 1]

/-- A concrete feed state over `ℕ`-indexed components (pressure 2,
temperature 3, flow of component `j` equal to `j + 1`), used as witness
input for `_get_state_args`. -/
def sourceArgsEx : StateArgs ℕ := ⟨2, 3, fun j => (j : ℚ) + 1⟩

/-- A concrete electroneutrality-consistent state over `soluteSetEx`:
solute 0 carries charge `+1` at concentration `1e-6 mol/m**3`, solute 1
charge `-1` at zero concentration, zero membrane charge density, so
every charge balance equals `tol_electroneutrality` exactly. -/
def chargeStateEx : ChargeState ℕ :=
  { conc_interface := fun _ j => if j = 0 then 1e-6 else 0
    conc_pore_entrance := fun _ j => if j = 0 then 1e-6 else 0
    conc_pore_exit := fun _ j => if j = 0 then 1e-6 else 0
    conc_permeate := fun _ j => if j = 0 then 1e-6 else 0
    conc_mixed_permeate := fun j => if j = 0 then 1e-6 else 0
    conc_feed_outlet := fun j => if j = 0 then 1e-6 else 0
    charge := fun j => if j = 0 then 1 else -1
    membrane_charge_density := 0 }

end NF

namespace Flowsheets

/-!
Embedding of the flowsheet-script functions: the `solve` wrappers of
`watertap/examples/flowsheets/oaro/oaro_test.py` and
`watertap/examples/flowsheets/case_studies/wastewater_resource_recovery/swine_wwt/swine_wwt.py`,
and the design-variant functions of
`proteuslib/flowsheets/full_treatment_train/simple_NF_with_RO_0D.py`.

The external solver is a boundary: it is modelled as an oracle
`optimal : ℕ → Bool` giving the termination status of the n-th
`solver.solve(blk, tee=tee)` call; a results object is identified by
its call index.
-/

/-- What a `solve` wrapper call did: how many solver calls it issued
and which call's results object it returned. -/
structure SolveLog where
  calls : ℕ
  returned : ℕ
  deriving DecidableEq, Repr

/-- The OARO script's `solve(blk, solver=None, tee=True)`: one solver
call; if its termination is not optimal, exactly one further call, and
that second result is returned.  The wrapper never raises (its return
type carries no error). -/
def oaro_solve (optimal : ℕ → Bool) : SolveLog :=
  if optimal 0 then ⟨1, 0⟩ else ⟨2, 1⟩

/-- The swine-WWT script's
`solve(blk, solver=None, tee=False, check_termination=True)`: one
solver call, no retry; if `check_termination`,
`assert_optimal_termination(results)` raises on a non-optimal result,
otherwise the results object is returned unchecked.  The first
component counts solver calls. -/
def swine_solve (optimal : ℕ → Bool) (check_termination : Bool) :
    ℕ × Except Unit ℕ :=
  (1, if check_termination && !(optimal 0) then Except.error () else Except.ok 0)

/-- A variable of the simple NF+RO flowsheet model as the design
variants touch it: its fixed flag, bounds and current value. -/
structure VarSpec where
  fixed : Bool
  lb : Option ℚ
  ub : Option ℚ
  value : ℚ
  deriving DecidableEq

/-- The objective each design variant attaches. -/
inductive DesignObjective
  | nf_inlet_H2O_flow
  | neg_system_water_recovery
  deriving DecidableEq, Repr

/-- The simple NF+RO flowsheet model, restricted to what
`minimize_pretreatment` / `maximize_system_recovery` read or write:
the two split fractions, the two recovery variables, the optional
`eq_no_scaling` constraint (holding its right-hand bound), the optional
objective, and `rest`: every other part of the model (property package,
units, arcs, base constraints, remaining variables), carried opaquely. -/
structure NfRoModel (α : Type) where
  split_fraction_recycle : VarSpec
  bypass_split_fraction : VarSpec
  RO_water_recovery : VarSpec
  system_water_recovery : VarSpec
  eq_no_scaling : Option ℚ
  objective : Option DesignObjective
  rest : α

/-- `copy.deepcopy`: produces a fully independent clone sharing no
mutable state with the original; with value semantics this is the
identity on the model value, and subsequent mutations of the clone are
pure record updates that cannot reach the original. -/
def deepcopy (m : NfRoModel α) : NfRoModel α := m

/-- The structural part of the model: everything except variable
values (which a solve may move). -/
def structureOf (m : NfRoModel α) :
    (Bool × Option ℚ × Option ℚ) × (Bool × Option ℚ × Option ℚ) ×
    (Bool × Option ℚ × Option ℚ) × (Bool × Option ℚ × Option ℚ) ×
    Option ℚ × Option DesignObjective × α :=
  ((m.split_fraction_recycle.fixed, m.split_fraction_recycle.lb, m.split_fraction_recycle.ub),
   (m.bypass_split_fraction.fixed, m.bypass_split_fraction.lb, m.bypass_split_fraction.ub),
   (m.RO_water_recovery.fixed, m.RO_water_recovery.lb, m.RO_water_recovery.ub),
   (m.system_water_recovery.fixed, m.system_water_recovery.lb, m.system_water_recovery.ub),
   m.eq_no_scaling, m.objective, m.rest)

/-- The shared relaxation block of both design variants:
`split.split_fraction[0, "recycle"]` and
`bypass.split_fraction[0, "bypass"]` are unfixed and given bounds
`[0, 1]`. -/
def relaxSplits (m : NfRoModel α) : NfRoModel α :=
  let m := { m with split_fraction_recycle :=
    { m.split_fraction_recycle with fixed := false, lb := some 0, ub := some 1 } }
  { m with bypass_split_fraction :=
    { m.bypass_split_fraction with fixed := false, lb := some 0, ub := some 1 } }

/-- `minimize_pretreatment(original_m, system_water_recovery)`:
deep-copies the base model, relaxes the split fractions, unfixes
`RO_water_recovery`, fixes `system_water_recovery` to the argument,
adds the single `eq_no_scaling` inequality
`post_mixer CaSO4 flow / (1 - RO_water_recovery) <= 0.002`, attaches
the scalar objective `NF.inlet H2O flow`, and resolves (the external
`solve` only moves variable values).  Returns the modified clone. -/
def minimize_pretreatment (solve : NfRoModel α → NfRoModel α)
    (original_m : NfRoModel α) (system_water_recovery : ℚ) : NfRoModel α :=
  let m := deepcopy original_m
  let m := relaxSplits m
  let m := { m with RO_water_recovery := { m.RO_water_recovery with fixed := false } }
  let m := { m with system_water_recovery :=
    { m.system_water_recovery with fixed := true, value := system_water_recovery } }
  let m := { m with eq_no_scaling := some 0.002 }
  let m := { m with objective := some DesignObjective.nf_inlet_H2O_flow }
  solve m

/-- `maximize_system_recovery(original_m, RO_water_recovery)`: as
`minimize_pretreatment` but fixing `RO_water_recovery` to the argument,
unfixing `system_water_recovery`, and attaching the objective
`-system_water_recovery`. -/
def maximize_system_recovery (solve : NfRoModel α → NfRoModel α)
    (original_m : NfRoModel α) (RO_water_recovery : ℚ) : NfRoModel α :=
  let m := deepcopy original_m
  let m := relaxSplits m
  let m := { m with RO_water_recovery :=
    { m.RO_water_recovery with fixed := true, value := RO_water_recovery } }
  let m := { m with system_water_recovery := { m.system_water_recovery with fixed := false } }
  let m := { m with eq_no_scaling := some 0.002 }
  let m := { m with objective := some DesignObjective.neg_system_water_recovery }
  solve m

/-- A concrete base model (over `rest : ℕ`), used as witness input: the
state of the flowsheet after `set_dof` and `simulate` (all design
variables fixed, no scaling constraint, no objective). -/
def baseModelEx : NfRoModel ℕ :=
  { split_fraction_recycle := ⟨true, none, none, 0.8⟩
    bypass_split_fraction := ⟨true, none, none, 0.5⟩
    RO_water_recovery := ⟨true, some 0, some 1, 0.6⟩
    system_water_recovery := ⟨false, some 0, some 1, 0.5⟩
    eq_no_scaling := none
    objective := none
    rest := 42 }

end Flowsheets
namespace ADM1

open Reaction Phase Component

theorem ci_filter_eq : ciComponents.filter (fun S => S ≠ S_IC) = ciNoIC := by
  decide

theorem mem_rate_reaction_idx (R : Reaction) : R ∈ rate_reaction_idx := by
  cases R <;> decide

theorem find?_key_map {κ ν : Type} [DecidableEq κ] (f : κ → ν) :
    ∀ (l : List κ) (k : κ), k ∈ l →
      (l.map (fun x => (x, f x))).find? (fun p => p.1 = k) = some (k, f k) := by
  intro l
  induction l with
  | nil => intro k hk; cases hk
  | cons x xs ih =>
    intro k hk
    by_cases h : x = k
    · subst h
      apply List.find?_cons_of_pos
      simp
    · rcases List.mem_cons.mp hk with h' | h'
      · exact absurd h'.symm h
      · rw [List.map_cons, List.find?_cons_of_neg _ (by simp [h])]
        exact ih k h'

theorem stoich_grid_factor :
    (rate_reaction_idx ×ˢ components25).map
      (fun p => ((p.1, Liq, p.2), stoichUpdated p.1 p.2))
    = ((rate_reaction_idx ×ˢ components25).map (fun p => (p.1, Liq, p.2))).map
        (fun k => (k, stoichUpdated k.1 k.2.2)) := by
  rw [List.map_map]
  rfl

theorem stoich_extra_factor :
    rate_reaction_idx.flatMap
      (fun R => [((R, Liq, S_cat), (0:ℚ)), ((R, Liq, S_an), 0)])
    = (rate_reaction_idx.flatMap (fun R => [(R, Liq, S_cat), (R, Liq, S_an)])).map
        (fun k => (k, (0:ℚ))) := by
  rw [List.map_flatMap]
  rfl

theorem stoichUpdated_cat_an (R : Reaction) :
    stoichUpdated R S_cat = 0 ∧ stoichUpdated R S_an = 0 := by
  cases R <;> exact ⟨rfl, rfl⟩

theorem not_mem25_cases (c : Component) (hc : c ∉ components25) :
    c = S_cat ∨ c = S_an := by
  revert hc
  cases c <;> decide

/-- Every key `(R, "Liq", c)` of the finished dict holds the value
`stoichUpdated R c` (for `S_cat`/`S_an` the appended zero agrees with
the wildcard row value). -/
theorem stoichLookup_eq (R : Reaction) (c : Component) :
    stoichLookup (R, Liq, c) = some (stoichUpdated R c) := by
  rw [stoichLookup, rate_reaction_stoichiometry, List.find?_append]
  by_cases hc : c ∈ components25
  · have hmem : ((R, Liq, c) : Reaction × Phase × Component)
        ∈ (rate_reaction_idx ×ˢ components25).map (fun p => (p.1, Liq, p.2)) :=
      List.mem_map.mpr ⟨(R, c), List.mem_product.mpr ⟨mem_rate_reaction_idx R, hc⟩, rfl⟩
    have h1 := find?_key_map
      (fun k : Reaction × Phase × Component => stoichUpdated k.1 k.2.2) _ _ hmem
    rw [stoich_grid_factor, h1]
    rfl
  · have hgrid : ((rate_reaction_idx ×ˢ components25).map
        (fun p => ((p.1, Liq, p.2), stoichUpdated p.1 p.2))).find?
          (fun p => p.1 = ((R, Liq, c) : Reaction × Phase × Component)) = none := by
      rw [List.find?_eq_none]
      intro x hx
      obtain ⟨p, hp, rfl⟩ := List.mem_map.mp hx
      simp only [decide_eq_true_eq, Prod.mk.injEq]
      rintro ⟨rfl, -, rfl⟩
      exact hc (List.mem_product.mp hp).2
    have hmem : ((R, Liq, c) : Reaction × Phase × Component)
        ∈ rate_reaction_idx.flatMap (fun R => [(R, Liq, S_cat), (R, Liq, S_an)]) := by
      refine List.mem_flatMap.mpr ⟨R, mem_rate_reaction_idx R, ?_⟩
      rcases not_mem25_cases c hc with rfl | rfl <;> simp
    have h2 := find?_key_map (fun _ : Reaction × Phase × Component => (0:ℚ)) _ _ hmem
    rw [hgrid, stoich_extra_factor, Option.none_or, h2]
    rcases not_mem25_cases c hc with rfl | rfl
    · rw [Option.map_some', (stoichUpdated_cat_an R).1]
    · rw [Option.map_some', (stoichUpdated_cat_an R).2]

theorem stoich_length : rate_reaction_stoichiometry.length = 513 := by
  rw [rate_reaction_stoichiometry, List.length_append, List.length_map,
    List.length_product]
  simp [rate_reaction_idx, components25]

theorem sIcValue_eq (R : Reaction) :
    sIcValue R = -((ciNoIC.map (fun S => Ci S * stoichLit R S * mw_c)).sum) := by
  rw [sIcValue, ci_filter_eq]

theorem stoichUpdated_of_ne (R : Reaction) (c : Component) (h : ¬c = S_IC) :
    stoichUpdated R c = stoichLit R c := by
  simp [stoichUpdated, h]

theorem stoichUpdated_sic {R : Reaction} (hR : R ∈ s_ic_rxns) :
    stoichUpdated R S_IC = sIcValue R := by
  simp [stoichUpdated, hR]

/-- C1, counterexample: the claim is false on the code.  After
`ADM1ReactionParameterData.build()` completes, `rate_reaction_stoichiometry`
does not have `19 * 25 = 475` entries (the final loop of `build` adds
`S_cat` and `S_an` rows for every reaction, giving 513), and the key
`("R1", "Liq", "S_cat")` is present although its third element is not a
member of the 25-name component list. -/
theorem extra_key_mem (R : Reaction) (c : Component) (hc : c = S_cat ∨ c = S_an) :
    ((R, Liq, c) : Reaction × Phase × Component)
      ∈ rate_reaction_stoichiometry.map Prod.fst := by
  rw [rate_reaction_stoichiometry, List.map_append]
  apply List.mem_append_right
  rw [stoich_extra_factor, List.map_map]
  refine List.mem_map.mpr ⟨(R, Liq, c), ?_, rfl⟩
  refine List.mem_flatMap.mpr ⟨R, mem_rate_reaction_idx R, ?_⟩
  rcases hc with rfl | rfl <;> simp

theorem C1_stoich_table_counterexample :
    rate_reaction_stoichiometry.length ≠ 19 * 25 ∧
    (R1, Liq, S_cat) ∈ rate_reaction_stoichiometry.map Prod.fst ∧
    S_cat ∉ components25 :=
  ⟨by rw [stoich_length]; decide,
   extra_key_mem R1 S_cat (Or.inl rfl),
   by decide⟩

/-- C1, amended: after `ADM1ReactionParameterData.build()` completes,
`rate_reaction_stoichiometry` contains exactly `19 * 27 = 513` entries,
and for every key the first element is one of `R1..R19`, the second is
`"Liq"`, and the third is a member of the 25-name component list
extended with `S_cat` and `S_an`. -/
theorem C1_stoich_table_amended :
    rate_reaction_stoichiometry.length = 19 * 27 ∧
    ∀ k ∈ rate_reaction_stoichiometry.map Prod.fst,
      k.1 ∈ rate_reaction_idx ∧ k.2.1 = Liq ∧ k.2.2 ∈ components27 := by
  refine ⟨by rw [stoich_length], ?_⟩
  intro k hk
  rw [rate_reaction_stoichiometry, List.map_append] at hk
  rcases List.mem_append.mp hk with h | h
  · rw [List.map_map] at h
    obtain ⟨p, hp, rfl⟩ := List.mem_map.mp h
    obtain ⟨a, b⟩ := p
    obtain ⟨ha, hb⟩ := List.mem_product.mp hp
    exact ⟨ha, rfl, List.mem_append_left _ hb⟩
  · rw [stoich_extra_factor, List.map_map] at h
    obtain ⟨q, hq, rfl⟩ := List.mem_map.mp h
    obtain ⟨R, hR, hqm⟩ := List.mem_flatMap.mp hq
    simp only [List.mem_cons, List.mem_singleton, List.not_mem_nil, or_false] at hqm
    rcases hqm with rfl | rfl
    · exact ⟨hR, rfl, show S_cat ∈ components27 by decide⟩
    · exact ⟨hR, rfl, show S_an ∈ components27 by decide⟩

/-- Witness for C1: the amended key property instantiated at the
concrete key `("R1", "Liq", "S_cat")`. -/
theorem C1_stoich_table_amended_witness :
    (R1, Liq, S_cat) ∈ rate_reaction_stoichiometry.map Prod.fst ∧
    (R1 ∈ rate_reaction_idx ∧ Liq = Liq ∧ S_cat ∈ components27) :=
  ⟨extra_key_mem R1 S_cat (Or.inl rfl),
   C1_stoich_table_amended.2 (R1, Liq, S_cat) (extra_key_mem R1 S_cat (Or.inl rfl))⟩

/-- C2, counterexample: the claim is false on the code.  For the uptake
reaction R5 (at the default parameter values the block is built with)
the stored `S_IC` coefficient is `0.0861948`, while the negative
carbon-weighted sum of the other components' coefficients (without a
molar-mass factor, as the claim states it) is `0.0071829`: the code
multiplies each summand by `mw_c = 12 kg/kmol`. -/
theorem C2_sic_carbon_balance_counterexample :
    stoichLookup (R5, Liq, S_IC) = some (861948 / 10000000) ∧
    claimedSIC R5 = 71829 / 10000000 ∧
    stoichLookup (R5, Liq, S_IC) ≠ some (claimedSIC R5) := by
  have hv : stoichUpdated R5 S_IC = 861948 / 10000000 := by
    rw [stoichUpdated_sic (by decide), sIcValue_eq]
    norm_num [ciNoIC, Ci, stoichLit, stoichR5, mw_c, Y_su, f_bu_su, f_pro_su,
      f_ac_su, f_h2_su, N_bac, mw_n]
  have hc : claimedSIC R5 = 71829 / 10000000 := by
    rw [claimedSIC, ci_filter_eq]
    norm_num [ciNoIC, Ci, stoichLit, stoichR5, Y_su, f_bu_su, f_pro_su,
      f_ac_su, f_h2_su, N_bac, mw_n]
  refine ⟨by rw [stoichLookup_eq, hv], hc, ?_⟩
  rw [stoichLookup_eq, hv, hc]
  intro h
  have h2 := Option.some.inj h
  norm_num at h2

/-- C2, amended: for each of the five uptake reactions `R5, R6, R10,
R11, R12`, the `S_IC` coefficient stored in
`rate_reaction_stoichiometry` equals the negative of the carbon-weighted
sum of the stored coefficients of every other `Ci`-indexed component of
that reaction, with each summand additionally converted by
`mw_c = 12 kg/kmol`, exactly as the update loop of `build` computes it. -/
theorem C2_sic_carbon_balance_amended : ∀ R ∈ s_ic_rxns,
    stoichLookup (R, Liq, S_IC) =
      some (-((ciComponents.filter (fun S => S ≠ S_IC)).map
          (fun S => Ci S * ((stoichLookup (R, Liq, S)).getD 0) * mw_c)).sum) := by
  intro R hR
  rw [ci_filter_eq]
  simp only [ciNoIC, List.map_cons, List.map_nil, List.sum_cons, List.sum_nil,
    stoichLookup_eq, Option.getD_some, Option.some.injEq, stoichUpdated_of_ne,
    stoichUpdated_sic hR, sIcValue_eq, reduceCtorEq, not_false_eq_true]

/-- Witness for C2: the amended carbon-balance relation instantiated at
the concrete reaction `R5`. -/
theorem C2_sic_carbon_balance_amended_witness :
    R5 ∈ s_ic_rxns ∧
    stoichLookup (R5, Liq, S_IC) =
      some (-((ciComponents.filter (fun S => S ≠ S_IC)).map
          (fun S => Ci S * ((stoichLookup (R5, Liq, S)).getD 0) * mw_c)).sum) :=
  ⟨by decide, C2_sic_carbon_balance_amended R5 (by decide)⟩

end ADM1

namespace ADM1

open Reaction Phase Component

/-- C8: if construction of the ADM1 rate constraints in
`ADM1ReactionBlockData._rxn_rate` fails with an `AttributeError`, the
method deletes the partially built `reaction_rate` variable and
`rate_expression` constraint from the block and re-raises the same
error: whatever the incoming block and whichever rule application
raised, the block is left with neither component and the propagated
error is the one the rule raised.  (The auxiliary speciation components
also created by `_rxn_rate` are not torn down.) -/
theorem C8_rxn_rate_cleanup_on_failure {E : Type} (blk : RxnBlock E)
    (rule : Reaction → Except AttrError E) (e : AttrError)
    (h : constructConstraint rule rate_reaction_idx = Except.error e) :
    rxn_rate blk rule =
      ({ reaction_rate := none, rate_expression := none,
         aux_speciation := true }, some e) := by
  simp [rxn_rate, h]

/-- Witness for C8: a rule whose first application raises
`AttributeError` number 7 leaves the block without `reaction_rate` and
`rate_expression` and re-raises that error. -/
theorem C8_rxn_rate_cleanup_on_failure_witness :
    constructConstraint (fun _ : Reaction => (Except.error 7 : Except AttrError Unit))
        rate_reaction_idx = Except.error 7 ∧
    rxn_rate (⟨none, none, false⟩ : RxnBlock Unit) (fun _ => Except.error 7) =
      (⟨none, none, true⟩, some 7) :=
  ⟨rfl, C8_rxn_rate_cleanup_on_failure ⟨none, none, false⟩ (fun _ => Except.error 7) 7 rfl⟩

/-- C9: the R8/R9 uptake-rate expressions divide by the unguarded sum
`S_bu + S_va`; when both concentrations are zero (values the
non-negative variable domains admit) evaluation is undefined, and with
the precondition `0 < S_bu + S_va` (and a positive half-saturation
constant) both rate expressions evaluate. -/
theorem C9_r8_r9_unguarded_division (k K I_r : ℚ) (conc : Component → ℚ) :
    (conc S_bu = 0 → conc S_va = 0 →
      rate_R8 k K conc I_r = none ∧ rate_R9 k K conc I_r = none) ∧
    (0 < K → 0 ≤ conc S_va → 0 ≤ conc S_bu → 0 < conc S_bu + conc S_va →
      (rate_R8 k K conc I_r).isSome ∧ (rate_R9 k K conc I_r).isSome) := by
  constructor
  · intro hbu hva
    by_cases hK : K = 0 <;>
      simp [rate_R8, rate_R9, evalDiv, hbu, hva, hK]
  · intro hK hva hbu hsum
    have h1 : K + conc S_va ≠ 0 := by positivity
    have h2 : K + conc S_bu ≠ 0 := by positivity
    have h3 : conc S_bu + conc S_va ≠ 0 := ne_of_gt hsum
    simp [rate_R8, rate_R9, evalDiv, h1, h2, h3]

/-- Witness for C9: at the all-zero concentration state both rates are
undefined; with butyrate present both evaluate (default `k_m_c4`,
`K_S_c4`). -/
theorem C9_r8_r9_unguarded_division_witness :
    (rate_R8 k_m_c4 K_S_c4 (fun _ => 0) 1 = none ∧
     rate_R9 k_m_c4 K_S_c4 (fun _ => 0) 1 = none) ∧
    ((rate_R8 k_m_c4 K_S_c4 concButyrateOnly 1).isSome ∧
     (rate_R9 k_m_c4 K_S_c4 concButyrateOnly 1).isSome) :=
  ⟨(C9_r8_r9_unguarded_division k_m_c4 K_S_c4 1 (fun _ => 0)).1 rfl rfl,
   (C9_r8_r9_unguarded_division k_m_c4 K_S_c4 1 concButyrateOnly).2
     (by norm_num [K_S_c4])
     (by simp [concButyrateOnly])
     (by simp [concButyrateOnly])
     (by simp [concButyrateOnly])⟩

end ADM1

namespace NF

/-- C3, counterexample: `lambda_comp` is not `min(1, r_stokes/r_pore)`:
it is `smooth_min(1, r_stokes/r_pore)`, and at a Stokes radius equal to
the pore radius (ratio 1) the smooth form gives `1 - eps/2`, not `1`
(shown at the IDAES default smoothing parameter `eps = 1e-4`). -/
theorem C3_lambda_counterexample :
    lambda_comp 1 1 (1e-4) ≠ min 1 (1 / 1) := by
  have h : ((1:ℝ) - 1/1) ^ 2 + (1e-4:ℝ) ^ 2 = (1e-4:ℝ) ^ 2 := by norm_num
  rw [lambda_comp, smooth_min, h, Real.sqrt_sq_eq_abs]
  rw [abs_of_pos (by norm_num : (0:ℝ) < 1e-4)]
  norm_num

/-- C3, amended: `lambda_comp` is `smooth_min(1, r_stokes/r_pore)`, a
smooth under-approximation of the min, so for every Stokes radius, pore
radius and smoothing parameter its value never exceeds
`min(1, r_stokes/r_pore)` and in particular never exceeds 1 (even when
the Stokes radius exceeds the pore radius); and the two branches of
`hindrance_factor_diffusive_comp` agree within `1e-3` at the switch
point `lambda = 0.95`. -/
theorem C3_lambda_hindrance_amended (radius_stokes radius_pore eps : ℝ) :
    lambda_comp radius_stokes radius_pore eps ≤ min 1 (radius_stokes / radius_pore) ∧
    lambda_comp radius_stokes radius_pore eps ≤ 1 ∧
    |hindrance_diffusive_above 0.95 - hindrance_diffusive_below 0.95| < 1e-3 := by
  set q : ℝ := radius_stokes / radius_pore with hq
  have hminle : lambda_comp radius_stokes radius_pore eps ≤ min 1 q := by
    rw [lambda_comp, smooth_min, ← hq]
    have h1 : |1 - q| ≤ Real.sqrt ((1 - q) ^ 2 + eps ^ 2) := by
      rw [← Real.sqrt_sq_eq_abs]
      apply Real.sqrt_le_sqrt
      nlinarith [sq_nonneg eps]
    rcases le_total 1 q with h | h
    · rw [min_eq_left h]
      have h2 : -(1 - q) ≤ |1 - q| := neg_le_abs _
      linarith
    · rw [min_eq_right h]
      have h2 : (1 - q) ≤ |1 - q| := le_abs_self _
      linarith
  have hle1 : lambda_comp radius_stokes radius_pore eps ≤ 1 :=
    le_trans hminle (min_le_left _ _)
  refine ⟨hminle, hle1, ?_⟩
  have hx : |(1:ℝ)/20| < 1 := by
    rw [abs_of_pos (by norm_num : (0:ℝ) < 1/20)]; norm_num
  have hb := Real.abs_log_sub_add_sum_range_le hx 4
  have hsum : (∑ i ∈ Finset.range 4, ((1:ℝ)/20) ^ (i + 1) / (i + 1)) = 98483 / 1920000 := by
    simp [Finset.sum_range_succ]
    norm_num
  rw [hsum, abs_of_pos (by norm_num : (0:ℝ) < 1/20)] at hb
  have hpow : ((1:ℝ)/20) ^ (4 + 1) / (1 - 1/20) = 1 / 3040000 := by norm_num
  rw [hpow] at hb
  have h095 : ((1:ℝ) - 1/20) = 0.95 := by norm_num
  rw [h095] at hb
  have hab := abs_le.mp hb
  have hLlo : -(98483/1920000 : ℝ) - 1/3040000 ≤ Real.log 0.95 := by linarith [hab.1]
  have hLhi : Real.log 0.95 ≤ -(98483/1920000 : ℝ) + 1/3040000 := by linarith [hab.2]
  have hb_lo : (0.000508 : ℝ) ≤ hindrance_diffusive_below 0.95 := by
    rw [hindrance_diffusive_below, le_div_iff₀ (by norm_num)]
    nlinarith [hLlo]
  have hb_hi : hindrance_diffusive_below 0.95 ≤ (0.000791 : ℝ) := by
    rw [hindrance_diffusive_below, div_le_iff₀ (by norm_num)]
    nlinarith [hLhi]
  have hs_hi : Real.sqrt ((1:ℝ)/19) < 0.22942 := by
    rw [Real.sqrt_lt' (by norm_num)]
    norm_num
  have hs_lo : (0.22941 : ℝ) < Real.sqrt ((1:ℝ)/19) := by
    rw [Real.lt_sqrt (by norm_num)]
    norm_num
  have habove : hindrance_diffusive_above 0.95
      = 0.984 * (((1:ℝ)/19) ^ 2 * Real.sqrt ((1:ℝ)/19)) := by
    rw [hindrance_diffusive_above]
    have h1 : ((1 - 0.95) / 0.95 : ℝ) = 1/19 := by norm_num
    rw [h1, show ((5:ℝ)/2) = (2:ℝ) + 1/2 by norm_num,
      Real.rpow_add (by norm_num : (0:ℝ) < 1/19), Real.rpow_two, ← Real.sqrt_eq_rpow]
  have ha_lo : (0.000625 : ℝ) < hindrance_diffusive_above 0.95 := by
    rw [habove]; nlinarith [hs_lo]
  have ha_hi : hindrance_diffusive_above 0.95 < (0.000626 : ℝ) := by
    rw [habove]; nlinarith [hs_hi]
  rw [abs_sub_lt_iff]
  constructor <;> linarith

/-- C5: with no `initialize_guess` supplied, `_get_state_args` scales
every component's retentate flow by exactly `0.9` and every permeate
flow by exactly `0.1` relative to the feed, multiplies only the solute
flows of the interface guesses by the default `cp_modulus = 1.1`
relative to their respective bulk guess (`interface_in` to the feed,
`interface_out` to the retentate), leaves the retentate pressure at the
feed pressure (default `deltaP = 0`), and sets the permeate pressure
from the mixed-permeate block. -/
theorem C5_default_initialize_guesses {ι : Type} [DecidableEq ι]
    (solvent_set solute_set : List ι) (source : StateArgs ι)
    (mixed_permeate_pressure : ℚ) (j : ι)
    (hdisj : ¬(j ∈ solvent_set ∧ j ∈ solute_set))
    (hmem : j ∈ solvent_set ∨ j ∈ solute_set) :
    (get_state_args solvent_set solute_set source mixed_permeate_pressure
        noGuess).retentate.flow_mol_phase_comp j
      = 0.9 * source.flow_mol_phase_comp j ∧
    (get_state_args solvent_set solute_set source mixed_permeate_pressure
        noGuess).permeate.flow_mol_phase_comp j
      = 0.1 * source.flow_mol_phase_comp j ∧
    (get_state_args solvent_set solute_set source mixed_permeate_pressure
        noGuess).retentate.pressure = source.pressure ∧
    (get_state_args solvent_set solute_set source mixed_permeate_pressure
        noGuess).permeate.pressure = mixed_permeate_pressure ∧
    (j ∈ solute_set →
      (get_state_args solvent_set solute_set source mixed_permeate_pressure
          noGuess).interface_in.flow_mol_phase_comp j
        = 1.1 * source.flow_mol_phase_comp j ∧
      (get_state_args solvent_set solute_set source mixed_permeate_pressure
          noGuess).interface_out.flow_mol_phase_comp j
        = 1.1 * (get_state_args solvent_set solute_set source mixed_permeate_pressure
            noGuess).retentate.flow_mol_phase_comp j) ∧
    (j ∈ solvent_set →
      (get_state_args solvent_set solute_set source mixed_permeate_pressure
          noGuess).interface_in.flow_mol_phase_comp j
        = source.flow_mol_phase_comp j ∧
      (get_state_args solvent_set solute_set source mixed_permeate_pressure
          noGuess).interface_out.flow_mol_phase_comp j
        = (get_state_args solvent_set solute_set source mixed_permeate_pressure
            noGuess).retentate.flow_mol_phase_comp j) := by
  rcases hmem with h | h
  · have h' : j ∉ solute_set := fun hs => hdisj ⟨h, hs⟩
    simp [get_state_args, fillGuess, noGuess, h, h']
    exact ⟨by ring, by ring⟩
  · have h' : j ∉ solvent_set := fun hs => hdisj ⟨hs, h⟩
    simp [get_state_args, fillGuess, noGuess, h, h']
    exact ⟨by ring, by ring, by ring, by ring⟩

/-- Witness for C5: component 1, a solute of a one-solvent (component
0), two-solute (components 1, 2) package, with feed state
`sourceArgsEx`. -/
theorem C5_default_initialize_guesses_witness :
    ¬((1 : ℕ) ∈ ([0] : List ℕ) ∧ (1 : ℕ) ∈ ([1, 2] : List ℕ)) ∧
    ((get_state_args [0] [1, 2] sourceArgsEx 5 noGuess).retentate.flow_mol_phase_comp 1
      = 0.9 * sourceArgsEx.flow_mol_phase_comp 1 ∧
    (get_state_args [0] [1, 2] sourceArgsEx 5 noGuess).permeate.flow_mol_phase_comp 1
      = 0.1 * sourceArgsEx.flow_mol_phase_comp 1 ∧
    (get_state_args [0] [1, 2] sourceArgsEx 5 noGuess).retentate.pressure
      = sourceArgsEx.pressure ∧
    (get_state_args [0] [1, 2] sourceArgsEx 5 noGuess).permeate.pressure = 5 ∧
    ((1 : ℕ) ∈ ([1, 2] : List ℕ) →
      (get_state_args [0] [1, 2] sourceArgsEx 5 noGuess).interface_in.flow_mol_phase_comp 1
        = 1.1 * sourceArgsEx.flow_mol_phase_comp 1 ∧
      (get_state_args [0] [1, 2] sourceArgsEx 5 noGuess).interface_out.flow_mol_phase_comp 1
        = 1.1 * (get_state_args [0] [1, 2] sourceArgsEx 5
            noGuess).retentate.flow_mol_phase_comp 1) ∧
    ((1 : ℕ) ∈ ([0] : List ℕ) →
      (get_state_args [0] [1, 2] sourceArgsEx 5 noGuess).interface_in.flow_mol_phase_comp 1
        = sourceArgsEx.flow_mol_phase_comp 1 ∧
      (get_state_args [0] [1, 2] sourceArgsEx 5 noGuess).interface_out.flow_mol_phase_comp 1
        = (get_state_args [0] [1, 2] sourceArgsEx 5
            noGuess).retentate.flow_mol_phase_comp 1)) :=
  ⟨by decide,
   C5_default_initialize_guesses [0] [1, 2] sourceArgsEx 5 1
     (by decide) (Or.inr (by decide))⟩

/-- C6: every state satisfying the built unit's electroneutrality
constraints (with `tol_electroneutrality = 1e-6 mol/m**3`) is
electroneutral within that tolerance at every modeled location:
feed-side membrane interface, pore entrance, pore exit, permeate,
mixed permeate, feed outlet, and the pore-average location, the
pore-side balances including the membrane charge density term. -/
theorem C6_electroneutrality_all_locations {ι : Type} (solute_set : List ι)
    (s : ChargeState ι)
    (h : electroneutralityConstraints solute_set s tol_electroneutrality) :
    (∀ x, |(solute_set.map (fun j => s.conc_interface x j * s.charge j)).sum| ≤ 1e-6) ∧
    (∀ x, |(solute_set.map (fun j => s.conc_pore_entrance x j * s.charge j)).sum
            + s.membrane_charge_density| ≤ 1e-6) ∧
    (∀ x, |(solute_set.map (fun j => s.conc_pore_exit x j * s.charge j)).sum
            + s.membrane_charge_density| ≤ 1e-6) ∧
    (∀ x, |(solute_set.map (fun j => s.conc_permeate x j * s.charge j)).sum| ≤ 1e-6) ∧
    |(solute_set.map (fun j => s.conc_mixed_permeate j * s.charge j)).sum| ≤ 1e-6 ∧
    |(solute_set.map (fun j => s.conc_feed_outlet j * s.charge j)).sum| ≤ 1e-6 ∧
    (∀ x, |(solute_set.map (fun j => s.conc_pore_avg x j * s.charge j)).sum
            + s.membrane_charge_density| ≤ 1e-6) := by
  obtain ⟨h1, h2, h3, h4, h5, h6⟩ := h
  refine ⟨fun x => ?_, fun x => ?_, fun x => ?_, fun x => ?_, ?_, ?_, fun x => ?_⟩
  · rw [h1 x]
    norm_num [tol_electroneutrality, abs_le]
  · rw [(h2 x).1]
    norm_num [tol_electroneutrality, abs_le]
  · rw [(h2 x).2]
    norm_num [tol_electroneutrality, abs_le]
  · rw [h3 x]
    norm_num [tol_electroneutrality, abs_le]
  · rw [h4]
    norm_num [tol_electroneutrality, abs_le]
  · rw [h5]
    norm_num [tol_electroneutrality, abs_le]
  · rw [h6 x]
    norm_num [tol_electroneutrality, abs_le]

/-- Witness for C6: the concrete state `chargeStateEx` satisfies every
electroneutrality constraint and is electroneutral within `1e-6` at the
inlet interface. -/
theorem C6_electroneutrality_all_locations_witness :
    electroneutralityConstraints soluteSetEx chargeStateEx tol_electroneutrality ∧
    |(soluteSetEx.map
        (fun j => chargeStateEx.conc_interface 0 j * chargeStateEx.charge j)).sum| ≤ 1e-6 := by
  have hcon : electroneutralityConstraints soluteSetEx chargeStateEx tol_electroneutrality := by
    refine ⟨fun x => ?_, fun x => ⟨?_, ?_⟩, fun x => ?_, ?_, ?_, fun x => ?_⟩ <;>
      norm_num [soluteSetEx, chargeStateEx, ChargeState.conc_pore_avg,
        tol_electroneutrality, eq_electroneutrality_interface,
        eq_electroneutrality_pore, eq_electroneutrality_permeate,
        eq_electroneutrality_mixed_permeate, eq_electroneutrality_feed_outlet,
        eq_electroneutrality_in_membrane]
  exact ⟨hcon,
    (C6_electroneutrality_all_locations soluteSetEx chargeStateEx hcon).1 0⟩

/-- C10: the `automate_rescale` keyword of
`NanofiltrationDSPMDE0D.initialize` has no effect: for every
configuration the step trace with `automate_rescale=True` equals the
trace with `automate_rescale=False`; badly scaled variables are
rescaled before the first solve exactly when any are detected, and
`_automate_rescale_variables` runs unconditionally after the inlet
state is released. -/
theorem C10_automate_rescale_no_effect (ignore_dof : Bool)
    (n_badly_scaled : ℕ) (first_solve_optimal : Bool) :
    initialize_trace true ignore_dof n_badly_scaled first_solve_optimal =
      initialize_trace false ignore_dof n_badly_scaled first_solve_optimal ∧
    (initialize_trace true ignore_dof n_badly_scaled first_solve_optimal).count
        InitStep.rescaleVariables = (if 0 < n_badly_scaled then 2 else 1) ∧
    [InitStep.releaseInletState, InitStep.rescaleVariables].IsSuffix
      (initialize_trace true ignore_dof n_badly_scaled first_solve_optimal) := by
  refine ⟨rfl, ?_, ?_⟩ <;>
    rcases Nat.eq_zero_or_pos n_badly_scaled with h | h <;>
      cases ignore_dof <;> cases first_solve_optimal <;>
        simp [initialize_trace, h, Nat.pos_iff_ne_zero.mp, List.count_cons,
          List.count_append] <;>
        decide

end NF

namespace Flowsheets

/-- C4: the OARO script's `solve` calls the solver once, retries
exactly once on a non-optimal first result and returns that second
result, never calls a third time nor raises; the swine-WWT script's
`solve` performs a single call with no retry and raises exactly when
`check_termination` is set and the termination is non-optimal,
returning the result unchecked when `check_termination` is `False`. -/
theorem C4_solve_retry_policies (optimal : ℕ → Bool) (check_termination : Bool) :
    (optimal 0 = true → oaro_solve optimal = ⟨1, 0⟩) ∧
    (optimal 0 = false → oaro_solve optimal = ⟨2, 1⟩) ∧
    (oaro_solve optimal).calls ≤ 2 ∧
    (swine_solve optimal check_termination).1 = 1 ∧
    ((swine_solve optimal check_termination).2 = Except.error () ↔
      check_termination = true ∧ optimal 0 = false) ∧
    (check_termination = false →
      (swine_solve optimal check_termination).2 = Except.ok 0) := by
  refine ⟨fun h => by simp [oaro_solve, h], fun h => by simp [oaro_solve, h],
    ?_, rfl, ?_, fun h => by simp [swine_solve, h]⟩
  · by_cases h : optimal 0 <;> simp [oaro_solve, h]
  · cases check_termination <;> cases hopt : optimal 0 <;>
      simp [swine_solve, hopt]

/-- Witness for C4: applied to an always-failing solver and to an
always-succeeding one. -/
theorem C4_solve_retry_policies_witness :
    oaro_solve (fun _ => false) = ⟨2, 1⟩ ∧
    oaro_solve (fun _ => true) = ⟨1, 0⟩ ∧
    (swine_solve (fun _ => false) true).2 = Except.error () ∧
    (swine_solve (fun _ => false) false).2 = Except.ok 0 :=
  ⟨(C4_solve_retry_policies (fun _ => false) true).2.1 rfl,
   (C4_solve_retry_policies (fun _ => true) true).1 rfl,
   ((C4_solve_retry_policies (fun _ => false) true).2.2.2.2.1).mpr ⟨rfl, rfl⟩,
   (C4_solve_retry_policies (fun _ => false) false).2.2.2.2.2 rfl⟩

/-- C7: both design variants operate only on the deep copy
(`copy.deepcopy` is the first statement; with value semantics the
original is never touched, and the embedding is a pure function of it),
and the returned clone differs structurally from the base by exactly:
the two split fractions unfixed with bounds `[0, 1]`, the
recovery-variable fix statuses (`RO_water_recovery` freed and
`system_water_recovery` fixed for `minimize_pretreatment`, the reverse
for `maximize_system_recovery`), the single added `eq_no_scaling`
inequality with bound `0.002`, and the single scalar objective; every
other structural part (`rest`, unchanged bounds) is that of the base,
assuming the external solver moves only variable values. -/
theorem C7_design_variants_frame {α : Type} (solve : NfRoModel α → NfRoModel α)
    (hsolve : ∀ mm, structureOf (solve mm) = structureOf mm)
    (original_m : NfRoModel α) (system_water_recovery RO_water_recovery : ℚ) :
    structureOf (minimize_pretreatment solve original_m system_water_recovery) =
      ((false, some 0, some 1), (false, some 0, some 1),
       (false, original_m.RO_water_recovery.lb, original_m.RO_water_recovery.ub),
       (true, original_m.system_water_recovery.lb, original_m.system_water_recovery.ub),
       some 0.002, some DesignObjective.nf_inlet_H2O_flow, original_m.rest) ∧
    structureOf (maximize_system_recovery solve original_m RO_water_recovery) =
      ((false, some 0, some 1), (false, some 0, some 1),
       (true, original_m.RO_water_recovery.lb, original_m.RO_water_recovery.ub),
       (false, original_m.system_water_recovery.lb, original_m.system_water_recovery.ub),
       some 0.002, some DesignObjective.neg_system_water_recovery, original_m.rest) := by
  constructor
  · rw [minimize_pretreatment, hsolve]
    simp [structureOf, relaxSplits, deepcopy]
  · rw [maximize_system_recovery, hsolve]
    simp [structureOf, relaxSplits, deepcopy]

/-- Witness for C7: the identity solver (which trivially preserves
structure) applied to the concrete base model. -/
theorem C7_design_variants_frame_witness :
    (∀ mm : NfRoModel ℕ, structureOf (id mm) = structureOf mm) ∧
    (structureOf (minimize_pretreatment id baseModelEx 0.99) =
      ((false, some 0, some 1), (false, some 0, some 1),
       (false, some 0, some 1), (true, some 0, some 1),
       some 0.002, some DesignObjective.nf_inlet_H2O_flow, 42) ∧
     structureOf (maximize_system_recovery id baseModelEx 0.70) =
      ((false, some 0, some 1), (false, some 0, some 1),
       (true, some 0, some 1), (false, some 0, some 1),
       some 0.002, some DesignObjective.neg_system_water_recovery, 42)) :=
  ⟨fun _ => rfl,
   C7_design_variants_frame id (fun _ => rfl) baseModelEx 0.99 0.70⟩

end Flowsheets
